import Mathlib

/-!
Verification of the air-quality activity planner (`src/app.py`).

The Python source is shallowly embedded below: pure helpers become Lean
functions, the two-step HTTP fetch becomes a function of an explicit
environment recording the upstream responses together with a trace of the
network calls performed, the sqlite store becomes a list of rows with an
auto-incrementing id, and exceptions become explicit constructors.
-/

namespace AirQuality

/-! ## Substring machinery (Python's `needle in hay` on strings) -/

/-- Does `hay` start with `needle` (character lists)? -/
def startsWithChars : List Char → List Char → Bool
  | [], _ => true
  | _ :: _, [] => false
  | a :: as, b :: bs => a == b && startsWithChars as bs

/-- Python's substring containment `needle in hay`, on character lists. -/
def hasSub (needle : List Char) : List Char → Bool
  | [] => needle.isEmpty
  | b :: bs => startsWithChars needle (b :: bs) || hasSub needle bs

theorem startsWithChars_iff (needle hay : List Char) :
    startsWithChars needle hay = true ↔ ∃ rest, hay = needle ++ rest := by
  induction needle generalizing hay with
  | nil => simp [startsWithChars]
  | cons a as ih =>
    cases hay with
    | nil => simp [startsWithChars]
    | cons b bs =>
      simp only [startsWithChars, Bool.and_eq_true, beq_iff_eq, ih]
      constructor
      · rintro ⟨rfl, rest, rfl⟩
        exact ⟨rest, rfl⟩
      · rintro ⟨rest, h⟩
        injection h with h1 h2
        exact ⟨h1.symm, rest, h2⟩

theorem hasSub_iff (needle hay : List Char) :
    hasSub needle hay = true ↔ ∃ l r, hay = l ++ needle ++ r := by
  induction hay with
  | nil =>
    simp only [hasSub, List.isEmpty_iff]
    constructor
    · rintro rfl
      exact ⟨[], [], rfl⟩
    · rintro ⟨l, r, h⟩
      rcases List.append_eq_nil.mp (List.append_eq_nil.mp h.symm).1 with ⟨-, h2⟩
      exact h2
  | cons b bs ih =>
    simp only [hasSub, Bool.or_eq_true, ih, startsWithChars_iff]
    constructor
    · rintro (⟨rest, h⟩ | ⟨l, r, h⟩)
      · exact ⟨[], rest, by simpa using h⟩
      · exact ⟨b :: l, r, by simp [h]⟩
    · rintro ⟨l, r, h⟩
      cases l with
      | nil => exact Or.inl ⟨r, by simpa using h⟩
      | cons x xs =>
        injection h with h1 h2
        exact Or.inr ⟨xs, r, h2⟩

/-! ## Activity classifier and recommender (`recommend_times`, lines 146-156) -/

/-- The fixed keyword vocabulary of line 149. -/
def outdoorKeywords : List String :=
  ["outdoor", "run", "jog", "cycle", "bike", "picnic", "hike", "walk", "garden", "sport"]

/-- Python's `str.lower()` (character-wise, as the ASCII mapping). -/
def pyLower (s : String) : List Char :=
  s.data.map Char.toLower

/-- Line 149: `any(word in activity.lower() for word in [...])`. -/
def isOutdoor (activity : String) : Bool :=
  outdoorKeywords.any fun w => hasSub w.data (pyLower activity)

/-- One row of the forecast DataFrame built by `get_aqi_data` (line 140). -/
structure Row where
  time : String
  aqi : Int
  level : String
deriving DecidableEq

/-- One row of the result DataFrame of `recommend_times` (line 155). -/
structure RecRow where
  activity : String
  bestTime : String
deriving DecidableEq

/-- Line 151: `df[df["aqi"] <= 2]["time"].tolist()`. -/
def goodTimes (df : List Row) : List String :=
  (df.filter fun r => r.aqi ≤ 2).map fun r => r.time

/-- Lines 146-156: one output row per activity, in order. -/
def recommend_times (activities_list : List String) (df : List Row) : List RecRow :=
  activities_list.map fun activity =>
    if isOutdoor activity then
      { activity := activity,
        bestTime :=
          if goodTimes df = [] then "No safe time today"
          else String.intercalate ", " (goodTimes df) }
    else
      { activity := activity, bestTime := "Any time (indoor activity)" }

/-- Abstract view of a recommendation's best-times list (the spec's
`best_times` field): the list the code computes at line 151 for outdoor
activities, empty for indoor ones. -/
def bestTimes (activity : String) (df : List Row) : List String :=
  if isOutdoor activity then goodTimes df else []

/-- The spec's qualitative status of a recommendation. -/
inductive QualStatus where
  | HasSafeWindow
  | NoSafeWindow
  | NotApplicableIndoor
deriving DecidableEq

/-- Abstract view of a recommendation's status, as the code branches at
lines 150-154. -/
def qualStatus (activity : String) (df : List Row) : QualStatus :=
  if isOutdoor activity then
    if goodTimes df = [] then .NoSafeWindow else .HasSafeWindow
  else .NotApplicableIndoor

/-! ## AQI colour helper (`aqi_color`, lines 109-111) -/

/-- Python list indexing `l[i]`: supports negative indices, `none` means an
IndexError is raised. -/
def pyGet (l : List String) (i : Int) : Option String :=
  if 0 ≤ i then l.get? i.toNat
  else if 0 ≤ l.length + i then l.get? (l.length + i).toNat
  else none

/-- Line 110: the five-element palette, Good through Very Poor. -/
def colors : List String :=
  ["#10b981", "#22c55e", "#f59e0b", "#ef4444", "#991b1b"]

/-- Lines 109-111: `colors[aqi - 1] if 1 <= aqi <= 5 else "#gray"`.
`none` would mean an uncaught IndexError. -/
def aqi_color (aqi : Int) : Option String :=
  if 1 ≤ aqi ∧ aqi ≤ 5 then pyGet colors (aqi - 1) else some "#gray"

/-! ## Forecast fetcher (`get_aqi_data`, lines 114-143) -/

/-- Line 138: `["Good", "Fair", "Moderate", "Poor", "Very Poor"][aqi - 1]`;
`none` means the lookup raises IndexError. -/
def levelNames : List String :=
  ["Good", "Fair", "Moderate", "Poor", "Very Poor"]

def levelOfAqi (aqi : Int) : Option String :=
  pyGet levelNames (aqi - 1)

/-- Line 139: `datetime.fromtimestamp(dt).strftime("%I %p").lstrip("0")`,
with local time taken as UTC. -/
def formatHour (dt : Int) : String :=
  let hour := (dt / 3600) % 24
  let h12 := hour % 12
  let h12 := if h12 = 0 then 12 else h12
  (if hour < 12 then toString h12 ++ " AM" else toString h12 ++ " PM")

/-- One record of the upstream pollution-forecast response: a unix
timestamp `entry["dt"]` and an AQI value `entry["main"]["aqi"]`. -/
structure Entry where
  dt : Int
  aqi : Int
deriving DecidableEq

/-- A hit of the upstream geocoding response (lines 122-125). -/
structure GeoHit where
  lat : Int
  lon : Int
deriving DecidableEq

/-- Environment of one `get_aqi_data` call: the secret store and the two
upstream responses. `none` stands for a network or parsing failure of
that call (the `except Exception` branches of lines 126 and 142). -/
structure Env where
  apiKey : Option String
  geoResp : Option (List GeoHit)
  aqiResp : Option (List Entry)
deriving DecidableEq

/-- A network round trip performed by `get_aqi_data`. -/
inductive Call where
  | geo
  | aqi
deriving DecidableEq, BEq

/-- Outcome of `get_aqi_data`: an uncaught exception, the `(None, msg)`
error tuple, or the `(df, None)` success tuple. -/
inductive FetchOutcome where
  | raised
  | errMsg : String → FetchOutcome
  | ok : List Row → FetchOutcome
deriving DecidableEq

def isErrMsg : FetchOutcome → Bool
  | .errMsg _ => true
  | _ => false

/-- Lines 134-140: the row-building loop. A `none` result means the level
lookup raised (caught at line 142). -/
def buildRows : List Entry → Option (List Row)
  | [] => some []
  | e :: es =>
    match levelOfAqi e.aqi with
    | none => none
    | some lvl =>
      match buildRows es with
      | none => none
      | some rows => some ({ time := formatHour e.dt, aqi := e.aqi, level := lvl } :: rows)

/-- Lines 114-143: `get_aqi_data`, returning its outcome together with the
trace of network calls performed. The secret lookup at line 116 precedes
both try blocks, so a missing key raises before any call. -/
def get_aqi_data (env : Env) : FetchOutcome × List Call :=
  match env.apiKey with
  | none => (.raised, [])
  | some _ =>
    match env.geoResp with
    | none => (.errMsg "Failed to geocode city.", [.geo])
    | some [] => (.errMsg "City not found. Try adding a country code.", [.geo])
    | some (_ :: _) =>
      match env.aqiResp with
      | none => (.errMsg "Failed to fetch air quality data.", [.geo, .aqi])
      | some entries =>
        match buildRows (entries.take 24) with
        | none => (.errMsg "Failed to fetch air quality data.", [.geo, .aqi])
        | some rows => (.ok rows, [.geo, .aqi])

/-! ## Plan store (`save_plan` / `load_plan_by_id`, lines 30-60).
JSON serialization of the activity list and the plan DataFrame is modelled
as the identity, since both round-trip faithfully for this data. -/

structure PlanRow where
  id : Nat
  city : String
  country : String
  activities : List String
  plan : List RecRow
deriving DecidableEq

/-- The `plans` table: stored rows plus the next AUTOINCREMENT id. -/
structure DB where
  rows : List PlanRow
  nextId : Nat

/-- Lines 30-39: INSERT a new plan row; the id under which it is stored is
returned alongside the new store. `country or ""` is the identity on
strings, first-componentwise. -/
def save_plan (db : DB) (city country : String) (activities : List String)
    (plan : List RecRow) : DB × Nat :=
  ({ rows := db.rows ++ [{ id := db.nextId, city := city, country := country,
                           activities := activities, plan := plan }],
     nextId := db.nextId + 1 },
   db.nextId)

/-- Lines 49-60: SELECT ... WHERE id = ?; `none` is the `(None, None, None,
None)` branch. -/
def load_plan_by_id (db : DB) (plan_id : Nat) :
    Option (List RecRow × List String × String × String) :=
  match db.rows.find? fun r => r.id == plan_id with
  | some r => some (r.plan, r.activities, r.city, r.country)
  | none => none

/-! ## Main app logic (lines 100-231) -/

/-- Python's `str.strip()`: drop whitespace at both ends. -/
def pyStrip (l : List Char) : List Char :=
  ((l.dropWhile Char.isWhitespace).reverse.dropWhile Char.isWhitespace).reverse

/-- Python's `str.split("\n")`: split a character list at newlines. -/
def splitLines : List Char → List (List Char)
  | [] => [[]]
  | c :: cs =>
    match splitLines cs with
    | [] => [[]]
    | l :: ls => if c = '\n' then [] :: l :: ls else (c :: l) :: ls

/-- Line 106: `[line.strip() for line in input.strip().split("\n") if
line.strip()]`. -/
def parseActivities (input : String) : List String :=
  (((splitLines (pyStrip input.data)).map fun l => String.mk (pyStrip l)).filter
    fun l => l ≠ "")

/-- Outcome of one button press of the main app. -/
inductive MainOutcome where
  | inputError : String → MainOutcome
  | fetchError : String → MainOutcome
  | raised
  | plan : List RecRow → MainOutcome
deriving DecidableEq

/-- Lines 159-231: the "Get Best Times" handler. Empty input is rejected
at line 160 before `get_aqi_data` runs; a successful fetch produces the
recommendation table, and the store is touched only when the save button
is pressed on a displayed plan. -/
def runApp (input : String) (env : Env) (db : DB) (saveRequested : Bool)
    (city country : String) : MainOutcome × List Call × DB :=
  let activities := parseActivities input
  if activities = [] then
    (.inputError "Please enter at least one activity.", [], db)
  else
    match get_aqi_data env with
    | (.raised, calls) => (.raised, calls, db)
    | (.errMsg m, calls) => (.fetchError m, calls, db)
    | (.ok rows, calls) =>
      let plan := recommend_times activities rows
      let db' := if saveRequested then (save_plan db city country activities plan).1 else db
      (.plan plan, calls, db')

/-! ## Shared lemmas -/

theorem buildRows_level (es : List Entry) (rows : List Row) (h : buildRows es = some rows) :
    ∀ r ∈ rows, levelOfAqi r.aqi = some r.level := by
  induction es generalizing rows with
  | nil =>
    intro r hr
    simp only [buildRows, Option.some.injEq] at h
    subst h
    simp at hr
  | cons e es ih =>
    intro r hr
    unfold buildRows at h
    cases hlvl : levelOfAqi e.aqi with
    | none => rw [hlvl] at h; exact absurd h (by simp)
    | some lvl =>
      rw [hlvl] at h
      cases hrest : buildRows es with
      | none => rw [hrest] at h; exact absurd h (by simp)
      | some rs =>
        rw [hrest] at h
        simp only [Option.some.injEq] at h
        subst h
        rcases List.mem_cons.mp hr with rfl | hmem
        · exact hlvl
        · exact ih rs hrest r hmem

theorem get_aqi_data_calls (env : Env) :
    (get_aqi_data env).2 = [] ∨ (get_aqi_data env).2 = [.geo]
      ∨ (get_aqi_data env).2 = [.geo, .aqi] := by
  rcases env with ⟨key, geo, aqi⟩
  cases key with
  | none => exact Or.inl rfl
  | some k =>
    cases geo with
    | none => exact Or.inr (Or.inl rfl)
    | some hits =>
      cases hits with
      | nil => exact Or.inr (Or.inl rfl)
      | cons hit rest =>
        cases aqi with
        | none => exact Or.inr (Or.inr rfl)
        | some entries =>
          cases hbr : buildRows (entries.take 24) with
          | none => exact Or.inr (Or.inr (by simp [get_aqi_data, hbr]))
          | some rs => exact Or.inr (Or.inr (by simp [get_aqi_data, hbr]))

/-! ## Claim theorems -/

/-- C1: for every forecast of at most 24 rows and every outdoor activity,
the recommendation's best-times list is exactly the ordered list of
forecast timestamps with aqi ≤ 2 (a sublist of the forecast's own
timestamps, never fabricated), the status is HasSafeWindow exactly when
that list is non-empty and NoSafeWindow exactly when it is empty, and
`recommend_times` renders precisely this list. -/
theorem recommend_outdoor_spec (df : List Row) (a : String)
    (_hlen : df.length ≤ 24) (hout : isOutdoor a = true) :
    bestTimes a df = (df.filter fun r => r.aqi ≤ 2).map (fun r => r.time)
    ∧ (bestTimes a df).Sublist (df.map fun r => r.time)
    ∧ (∀ t ∈ bestTimes a df, ∃ r ∈ df, r.aqi ≤ 2 ∧ r.time = t)
    ∧ (∀ r ∈ df, r.aqi ≤ 2 → r.time ∈ bestTimes a df)
    ∧ (bestTimes a df ≠ [] ↔ qualStatus a df = .HasSafeWindow)
    ∧ (bestTimes a df = [] ↔ qualStatus a df = .NoSafeWindow)
    ∧ recommend_times [a] df =
        [{ activity := a,
           bestTime := if bestTimes a df = [] then "No safe time today"
                       else String.intercalate ", " (bestTimes a df) }] := by
  have hbt : bestTimes a df = goodTimes df := by simp [bestTimes, hout]
  refine ⟨by simpa [goodTimes] using hbt, ?_, ?_, ?_, ?_, ?_, ?_⟩
  · rw [hbt]
    exact (List.filter_sublist df).map fun r => r.time
  · intro t ht
    rw [hbt] at ht
    simp only [goodTimes, List.mem_map, List.mem_filter, decide_eq_true_eq] at ht
    rcases ht with ⟨r, ⟨hr, hle⟩, rfl⟩
    exact ⟨r, hr, hle, rfl⟩
  · intro r hr hle
    rw [hbt]
    simp only [goodTimes, List.mem_map, List.mem_filter, decide_eq_true_eq]
    exact ⟨r, ⟨hr, hle⟩, rfl⟩
  · rw [hbt]
    simp only [qualStatus, hout, if_true]
    by_cases hg : goodTimes df = [] <;> simp [hg]
  · rw [hbt]
    simp only [qualStatus, hout, if_true]
    by_cases hg : goodTimes df = [] <;> simp [hg]
  · rw [hbt]
    simp [recommend_times, hout]

/-- C1 witness: the spec's own scenario, forecast
[(9AM,1),(10AM,3),(11AM,2)] with activity "Running outdoors". -/
theorem recommend_outdoor_spec_witness :
    bestTimes "Running outdoors"
        [⟨"9 AM", 1, "Good"⟩, ⟨"10 AM", 3, "Moderate"⟩, ⟨"11 AM", 2, "Fair"⟩]
      = ["9 AM", "11 AM"]
    ∧ qualStatus "Running outdoors"
        [⟨"9 AM", 1, "Good"⟩, ⟨"10 AM", 3, "Moderate"⟩, ⟨"11 AM", 2, "Fair"⟩]
      = .HasSafeWindow := by
  have h := recommend_outdoor_spec
    [⟨"9 AM", 1, "Good"⟩, ⟨"10 AM", 3, "Moderate"⟩, ⟨"11 AM", 2, "Fair"⟩]
    "Running outdoors" (by decide) (by decide)
  exact ⟨by rw [h.1]; decide, h.2.2.2.2.1.mp (by rw [h.1]; decide)⟩

/-- C2: an activity is classified outdoor iff its lowercased text contains
one of the ten keywords as a substring, and the classification depends
only on the lowercased text (case-insensitive). -/
theorem isOutdoor_spec (a : String) :
    (isOutdoor a = true ↔
      ∃ w ∈ outdoorKeywords, ∃ l r, pyLower a = l ++ w.data ++ r)
    ∧ (∀ b, pyLower a = pyLower b → isOutdoor a = isOutdoor b) := by
  constructor
  · simp only [isOutdoor, List.any_eq_true, hasSub_iff]
  · intro b h
    simp only [isOutdoor, h]

/-- C2 witness: "Bicycle" is outdoor because "cycle" occurs inside it, and
the label does not change with letter case. -/
theorem isOutdoor_spec_witness :
    isOutdoor "Bicycle" = true ∧ isOutdoor "BICYCLE" = isOutdoor "bicycle" := by
  refine ⟨?_, ?_⟩
  · exact (isOutdoor_spec "Bicycle").1.mpr
      ⟨"cycle", by decide, ['b', 'i'], [], by decide⟩
  · exact (isOutdoor_spec "BICYCLE").2 "bicycle" (by decide)

/-- C3: for a non-outdoor activity, regardless of the forecast, best_times
is empty, the status is NotApplicableIndoor, and the rendered row reads
"Any time (indoor activity)". -/
theorem recommend_indoor_spec (a : String) (df : List Row)
    (h : isOutdoor a = false) :
    bestTimes a df = []
    ∧ qualStatus a df = .NotApplicableIndoor
    ∧ recommend_times [a] df = [{ activity := a, bestTime := "Any time (indoor activity)" }] := by
  refine ⟨?_, ?_, ?_⟩
  · simp [bestTimes, h]
  · simp [qualStatus, h]
  · simp [recommend_times, h]

/-- C3 witness: "Indoor yoga" with a non-empty all-good forecast. -/
theorem recommend_indoor_spec_witness :
    bestTimes "Indoor yoga" [⟨"9 AM", 1, "Good"⟩] = []
    ∧ qualStatus "Indoor yoga" [⟨"9 AM", 1, "Good"⟩] = .NotApplicableIndoor := by
  have h := recommend_indoor_spec "Indoor yoga" [⟨"9 AM", 1, "Good"⟩] (by decide)
  exact ⟨h.1, h.2.1⟩

/-- C4: the aqi-to-level mapping is the pure function 1→Good, 2→Fair,
3→Moderate, 4→Poor, 5→Very Poor, and every row of a successful fetch has
its level derived from its aqi by exactly this mapping. -/
theorem level_mapping_spec :
    (levelOfAqi 1 = some "Good" ∧ levelOfAqi 2 = some "Fair"
      ∧ levelOfAqi 3 = some "Moderate" ∧ levelOfAqi 4 = some "Poor"
      ∧ levelOfAqi 5 = some "Very Poor")
    ∧ ∀ env rows, (get_aqi_data env).1 = .ok rows →
        ∀ r ∈ rows, levelOfAqi r.aqi = some r.level := by
  refine ⟨by decide, ?_⟩
  intro env rows h
  rcases env with ⟨key, geo, aqi⟩
  cases key with
  | none => exact absurd h (by simp [get_aqi_data])
  | some k =>
    cases geo with
    | none => exact absurd h (by simp [get_aqi_data])
    | some hits =>
      cases hits with
      | nil => exact absurd h (by simp [get_aqi_data])
      | cons hit rest =>
        cases aqi with
        | none => exact absurd h (by simp [get_aqi_data])
        | some entries =>
          cases hbr : buildRows (entries.take 24) with
          | none =>
            rw [show get_aqi_data ⟨some k, some (hit :: rest), some entries⟩
                = (.errMsg "Failed to fetch air quality data.", [.geo, .aqi]) from by
              simp [get_aqi_data, hbr]] at h
            exact absurd h (by simp)
          | some rs =>
            rw [show get_aqi_data ⟨some k, some (hit :: rest), some entries⟩
                = (.ok rs, [.geo, .aqi]) from by simp [get_aqi_data, hbr]] at h
            simp only [FetchOutcome.ok.injEq] at h
            subst h
            exact buildRows_level _ _ hbr

/-- C4 witness: a successful fetch of a single aqi-1 entry at 9 AM yields
the derived level Good. -/
theorem level_mapping_spec_witness :
    levelOfAqi (1 : Int) = some "Good" :=
  level_mapping_spec.2 ⟨some "key", some [⟨1, 2⟩], some [⟨32400, 1⟩]⟩
    [⟨"9 AM", 1, "Good"⟩] (by decide) ⟨"9 AM", 1, "Good"⟩ (by decide)

/-- A concrete environment whose secret store has no API key. -/
def envNoKey : Env := ⟨none, some [⟨1, 2⟩], some [⟨32400, 1⟩]⟩

/-- C5 counterexample: with the credential absent, `get_aqi_data` makes no
network call but terminates by raising (the secret lookup at line 116 is
outside both try blocks), not by returning the error-result tuple the
claim requires. -/
theorem missing_key_counterexample :
    get_aqi_data envNoKey = (.raised, [])
    ∧ isErrMsg (get_aqi_data envNoKey).1 = false := by
  decide

/-- C5 amended: if the credential is absent, `get_aqi_data` fails before
any network call is attempted, but the failure propagates as an uncaught
exception rather than being surfaced as an error result. -/
theorem missing_key_raises (env : Env) (h : env.apiKey = none) :
    get_aqi_data env = (.raised, [])
    ∧ isErrMsg (get_aqi_data env).1 = false := by
  rcases env with ⟨key, geo, aqi⟩
  cases h
  exact ⟨rfl, rfl⟩

/-- C5 witness: the amended behaviour at the concrete key-less
environment. -/
theorem missing_key_raises_witness :
    get_aqi_data envNoKey = (.raised, [])
    ∧ isErrMsg (get_aqi_data envNoKey).1 = false :=
  missing_key_raises envNoKey rfl

/-- C6: with a credential present, a geocoding result of zero hits fails
with the place-not-found message after only the geocoding call (no
forecast call); a network or parsing failure of either upstream call is
returned immediately as its classified error message; the fetch never
raises; and neither upstream call is ever made more than once. -/
theorem fetch_error_spec (env : Env) (k : String) (h : env.apiKey = some k) :
    (env.geoResp = some [] →
      get_aqi_data env = (.errMsg "City not found. Try adding a country code.", [.geo]))
    ∧ (env.geoResp = none →
      get_aqi_data env = (.errMsg "Failed to geocode city.", [.geo]))
    ∧ (∀ hit rest, env.geoResp = some (hit :: rest) → env.aqiResp = none →
      get_aqi_data env = (.errMsg "Failed to fetch air quality data.", [.geo, .aqi]))
    ∧ (get_aqi_data env).1 ≠ .raised
    ∧ (get_aqi_data env).2.count .geo ≤ 1
    ∧ (get_aqi_data env).2.count .aqi ≤ 1 := by
  rcases env with ⟨key, geo, aqi⟩
  cases h
  refine ⟨?_, ?_, ?_, ?_, ?_, ?_⟩
  · rintro rfl
    rfl
  · rintro rfl
    rfl
  · rintro hit rest rfl rfl
    rfl
  · cases geo with
    | none => simp [get_aqi_data]
    | some hits =>
      cases hits with
      | nil => simp [get_aqi_data]
      | cons hit rest =>
        cases aqi with
        | none => simp [get_aqi_data]
        | some entries =>
          cases hbr : buildRows (entries.take 24) <;> simp [get_aqi_data, hbr]
  · rcases get_aqi_data_calls ⟨some k, geo, aqi⟩ with hc | hc | hc <;> rw [hc] <;> decide
  · rcases get_aqi_data_calls ⟨some k, geo, aqi⟩ with hc | hc | hc <;> rw [hc] <;> decide

/-- C6 witness: an environment with a key whose geocoding returns zero
hits fails with the place-not-found message after the geocoding call
alone. -/
theorem fetch_error_spec_witness :
    get_aqi_data ⟨some "key", some [], some []⟩
      = (.errMsg "City not found. Try adding a country code.", [.geo]) :=
  (fetch_error_spec ⟨some "key", some [], some []⟩ "key" rfl).1 rfl

/-- C7: saving a plan and loading it back under the id assigned at
insertion returns the original activities and recommendations (the store
invariant: every existing row's id is below the next AUTOINCREMENT id). -/
theorem plan_roundtrip (db : DB) (city country : String) (activities : List String)
    (plan : List RecRow) (hfresh : ∀ r ∈ db.rows, r.id < db.nextId) :
    load_plan_by_id (save_plan db city country activities plan).1
        (save_plan db city country activities plan).2
      = some (plan, activities, city, country) := by
  unfold load_plan_by_id save_plan
  rw [List.find?_append]
  have hnone : db.rows.find? (fun r => r.id == db.nextId) = none := by
    rw [List.find?_eq_none]
    intro r hr
    simpa using Nat.ne_of_lt (hfresh r hr)
  rw [hnone]
  simp

/-- C7 witness: a round trip through an initially empty store. -/
theorem plan_roundtrip_witness :
    load_plan_by_id
        (save_plan ⟨[], 1⟩ "London" "UK" ["Morning run"]
          [⟨"Morning run", "9 AM"⟩]).1
        (save_plan ⟨[], 1⟩ "London" "UK" ["Morning run"]
          [⟨"Morning run", "9 AM"⟩]).2
      = some ([⟨"Morning run", "9 AM"⟩], ["Morning run"], "London", "UK") :=
  plan_roundtrip ⟨[], 1⟩ "London" "UK" ["Morning run"] [⟨"Morning run", "9 AM"⟩]
    (by simp)

/-- C8: if the activity list is empty after trimming blank lines, the
request is rejected with the empty-input message, no network call is
made, and the store is left untouched. -/
theorem empty_input_spec (input : String) (env : Env) (db : DB) (saveRequested : Bool)
    (city country : String) (h : parseActivities input = []) :
    runApp input env db saveRequested city country
      = (.inputError "Please enter at least one activity.", [], db) := by
  simp [runApp, h]

/-- C8 witness: whitespace-only input is rejected before any fetch, with
the store unchanged. -/
theorem empty_input_spec_witness :
    runApp "  \n \n" ⟨some "key", some [⟨1, 2⟩], some [⟨32400, 1⟩]⟩ ⟨[], 1⟩ true "London" "UK"
      = (.inputError "Please enter at least one activity.", [], (⟨[], 1⟩ : DB)) :=
  empty_input_spec "  \n \n" ⟨some "key", some [⟨1, 2⟩], some [⟨32400, 1⟩]⟩ ⟨[], 1⟩
    true "London" "UK" (by decide)

/-- C9: the recommender produces exactly one recommendation per input
activity and preserves the input order: projecting the activity column of
the output gives back the input list. -/
theorem recommend_order_spec (activities_list : List String) (df : List Row) :
    (recommend_times activities_list df).map RecRow.activity = activities_list
    ∧ (recommend_times activities_list df).length = activities_list.length := by
  constructor
  · induction activities_list with
    | nil => rfl
    | cons a as ih =>
      simp only [recommend_times, List.map_cons] at ih ⊢
      refine congrArg₂ List.cons ?_ ih
      by_cases h : isOutdoor a = true <;> simp [h]
  · simp [recommend_times]

/-- C10: the colour helper is total over all integers: inside [1,5] it
returns the palette entry at position aqi−1 (an in-bounds access), and
outside [1,5] it returns the fallback "#gray" instead of raising. -/
theorem aqi_color_spec (aqi : Int) :
    (aqi_color aqi).isSome = true
    ∧ (1 ≤ aqi → aqi ≤ 5 → aqi_color aqi = colors.get? (aqi - 1).toNat
        ∧ (colors.get? (aqi - 1).toNat).isSome = true)
    ∧ (¬(1 ≤ aqi ∧ aqi ≤ 5) → aqi_color aqi = some "#gray") := by
  by_cases h : 1 ≤ aqi ∧ aqi ≤ 5
  · obtain ⟨h1, h2⟩ := h
    interval_cases aqi <;>
      exact ⟨by decide, fun _ _ => ⟨by decide, by decide⟩,
        fun hc => absurd ⟨by decide, by decide⟩ hc⟩
  · refine ⟨?_, ?_, ?_⟩
    · simp [aqi_color, h]
    · intro h1 h2
      exact absurd ⟨h1, h2⟩ h
    · intro _
      simp [aqi_color, h]

/-- C10 witness: aqi 3 hits palette slot 2 and aqi −7 falls back to
"#gray". -/
theorem aqi_color_spec_witness :
    aqi_color 3 = colors.get? ((3 : Int) - 1).toNat ∧ aqi_color (-7) = some "#gray" :=
  ⟨((aqi_color_spec 3).2.1 (by decide) (by decide)).1,
    (aqi_color_spec (-7)).2.2 (by decide)⟩

end AirQuality
